import Mathlib

/-!
Shallow embedding of the Runge–Kutta tableau and dense-interpolation layer of
the diffrax source (files `diffrax/_solver/tsit5.py`, `diffrax/solver/tsit5.py`
and `diffrax/solver/dopri5.py`).  Numeric literals of the Python source are
embedded as exact rational numbers: every decimal literal denotes the exact
rational it prints.  States are modelled as vectors `Fin n → ℚ`, the stage
derivative stack `k` as `Fin 7 → Fin n → ℚ`.
-/

namespace Diffrax

/-- Butcher tableau of the newer API generation
(`diffrax/_solver/runge_kutta.py`, field names as used at the
construction site in `diffrax/_solver/tsit5.py`). -/
structure ButcherTableau where
  a_lower : List (List ℚ)
  b_sol : List ℚ
  b_error : List ℚ
  c : List ℚ

/-- Butcher tableau of the older API generation
(field names as used in `diffrax/solver/tsit5.py` and `diffrax/solver/dopri5.py`). -/
structure ButcherTableauOld where
  alpha : List ℚ
  beta : List (List ℚ)
  c_sol : List ℚ
  c_error : List ℚ

/-- Dot product of a weight list with a stage list,
`sum_i weights[i] * stages[i]` (the scalar-leaf case of `vector_tree_dot`). -/
def dotQ (ws ks : List ℚ) : ℚ :=
  (List.zipWith (fun a b => a * b) ws ks).sum

/-- Modelled from the spec: `linear_rescale` (from `diffrax/_misc.py`, which is
not among the sources) as §4.4 describes the rescaled local variable,
`τ = (t - t0)/(t1 - t0)`. -/
def linear_rescale (t0 t t1 : ℚ) : ℚ :=
  (t - t0) / (t1 - t0)

namespace NewAPI

/-- Tableau `_tsit5_tableau` of `diffrax/_solver/tsit5.py`. -/
def _tsit5_tableau : ButcherTableau where
  a_lower :=
    [ [161 / 1000],
      [ -0.8480655492356988544426874250230774675121177393430391537369234245294192976164141156943e-2,
        0.3354806554923569885444268742502307746751211773934303915373692342452941929761641411569],
      [ 2.897153057105493432130432594192938764924887287701866490314866693455023795137503079289,
        -6.359448489975074843148159912383825625952700647415626703305928850207288721235210244366,
        4.362295432869581411017727318190886861027813359713760212991062156752264926097707165077],
      [ 5.325864828439256604428877920840511317836476253097040101202360397727981648835607691791,
        -11.74888356406282787774717033978577296188744178259862899288666928009020615663593781589,
        7.495539342889836208304604784564358155658679161518186721010132816213648793440552049753,
        -0.9249506636175524925650207933207191611349983406029535244034750452930469056411389539635e-1],
      [ 5.861455442946420028659251486982647890394337666164814434818157239052507339770711679748,
        -12.92096931784710929170611868178335939541780751955743459166312250439928519268343184452,
        8.159367898576158643180400794539253485181918321135053305748355423955009222648673734986,
        -0.7158497328140099722453054252582973869127213147363544882721139659546372402303777878835e-1,
        -0.2826905039406838290900305721271224146717633626879770007617876201276764571291579142206e-1],
      [ 0.9646076681806522951816731316512876333711995238157997181903319145764851595234062815396e-1,
        1 / 100,
        0.4798896504144995747752495322905965199130404621990332488332634944254542060153074523509,
        1.379008574103741893192274821856872770756462643091360525934940067397245698027561293331,
        -3.290069515436080679901047585711363850115683290894936158531296799594813811049925401677,
        2.324710524099773982415355918398765796109060233222962411944060046314465391054716027841] ]
  b_sol :=
    [ 0.9646076681806522951816731316512876333711995238157997181903319145764851595234062815396e-1,
      1 / 100,
      0.4798896504144995747752495322905965199130404621990332488332634944254542060153074523509,
      1.379008574103741893192274821856872770756462643091360525934940067397245698027561293331,
      -3.290069515436080679901047585711363850115683290894936158531296799594813811049925401677,
      2.324710524099773982415355918398765796109060233222962411944060046314465391054716027841,
      0.0 ]
  b_error :=
    [ 0.9646076681806522951816731316512876333711995238157997181903319145764851595234062815396e-1
        - 0.9468075576583945807478876255758922856117527357724631226139574065785592789071067303271e-1,
      1 / 100
        - 0.9183565540343253096776363936645313759813746240984095238905939532922955247253608687270e-2,
      0.4798896504144995747752495322905965199130404621990332488332634944254542060153074523509
        - 0.4877705284247615707855642599631228241516691959761363774365216240304071651579571959813,
      1.379008574103741893192274821856872770756462643091360525934940067397245698027561293331
        - 1.234297566930478985655109673884237654035539930748192848315425833500484878378061439761,
      -3.290069515436080679901047585711363850115683290894936158531296799594813811049925401677
        + 2.707712349983525454881109975059321670689605166938197378763992255714444407154902012702,
      2.324710524099773982415355918398765796109060233222962411944060046314465391054716027841
        - 1.866628418170587035753719399566211498666255505244122593996591602841258328965767580089,
      -1 / 66 ]
  c :=
    [ 161 / 1000,
      327 / 1000,
      9 / 10,
      0.9800255409045096857298102862870245954942137979563024768854764293221195950761080302604,
      1.0,
      1.0 ]

/-- Interpolation weight polynomial `b1` of
`_Tsit5Interpolation.evaluate` in `diffrax/_solver/tsit5.py`. -/
def b1 (t : ℚ) : ℚ :=
  -1.0530884977290216 * t * (t - 1.3299890189751412)
    * (t ^ 2 - 1.4364028541716351 * t + 0.7139816917074209)

/-- Interpolation weight polynomial `b2` (new API). -/
def b2 (t : ℚ) : ℚ :=
  0.1017 * t ^ 2 * (t ^ 2 - 2.1966568338249754 * t + 1.2949852507374631)

/-- Interpolation weight polynomial `b3` (new API). -/
def b3 (t : ℚ) : ℚ :=
  2.490627285651252793 * t ^ 2 * (t ^ 2 - 2.38535645472061657 * t + 1.57803468208092486)

/-- Interpolation weight polynomial `b4` (new API). -/
def b4 (t : ℚ) : ℚ :=
  -16.54810288924490272 * (t - 1.21712927295533244) * (t - 0.61620406037800089) * t ^ 2

/-- Interpolation weight polynomial `b5` (new API). -/
def b5 (t : ℚ) : ℚ :=
  47.37952196281928122 * (t - 1.203071208372362603) * (t - 0.658047292653547382) * t ^ 2

/-- Interpolation weight polynomial `b6` (new API). -/
def b6 (t : ℚ) : ℚ :=
  -34.87065786149660974 * (t - 1.2) * (t - 0.666666666666666667) * t ^ 2

/-- Interpolation weight polynomial `b7` (new API). -/
def b7 (t : ℚ) : ℚ :=
  2.5 * (t - 1) * (t - 0.6) * t ^ 2

/-- The stack `[b1, ..., b7]` built by `u.math.stack` in the new-API `evaluate`. -/
def bvec (t : ℚ) : Fin 7 → ℚ :=
  ![b1 t, b2 t, b3 t, b4 t, b5 t, b6 t, b7 t]

/-- Class `_Tsit5Interpolation` of `diffrax/_solver/tsit5.py`: it stores
`t0, t1, y0, k` only (`__init__` deletes its `y1` argument). -/
structure Tsit5Interpolation (n : ℕ) where
  t0 : ℚ
  t1 : ℚ
  y0 : Fin n → ℚ
  k : Fin 7 → Fin n → ℚ

/-- Constructor `_Tsit5Interpolation.__init__` of the new API: takes `y1` and discards it
(`del y1  # exists for API compatibility`). -/
def Tsit5Interpolation.init {n : ℕ} (t0 t1 : ℚ) (y0 _y1 : Fin n → ℚ)
    (k : Fin 7 → Fin n → ℚ) : Tsit5Interpolation n :=
  ⟨t0, t1, y0, k⟩

/-- One-argument `_Tsit5Interpolation.evaluate` of the new API:
`t := linear_rescale(self.t0, t0, self.t1)`, then
`y0 + stack([b1 .. b7]) @ k` leaf-wise. -/
def Tsit5Interpolation.evaluate {n : ℕ} (I : Tsit5Interpolation n) (t : ℚ) :
    Fin n → ℚ :=
  fun j => I.y0 j + ∑ i : Fin 7, bvec (linear_rescale I.t0 t I.t1) i * I.k i j

/-- Two-argument `_Tsit5Interpolation.evaluate` of the new API:
`if t1 is not None: return self.evaluate(t1) - self.evaluate(t0)`. -/
def Tsit5Interpolation.evaluate2 {n : ℕ} (I : Tsit5Interpolation n)
    (ta tb : ℚ) : Fin n → ℚ :=
  fun j => I.evaluate tb j - I.evaluate ta j

end NewAPI

namespace OldAPI

/-- Tableau `_tsit5_tableau` of `diffrax/solver/tsit5.py` (older API generation). -/
def _tsit5_tableau : ButcherTableauOld where
  alpha :=
    [ 161 / 1000,
      327 / 1000,
      9 / 10,
      0.9800255409045096857298102862870245954942137979563024768854764293221195950761080302604,
      1.0,
      1.0 ]
  beta :=
    [ [161 / 1000],
      [ -0.8480655492356988544426874250230774675121177393430391537369234245294192976164141156943e-2,
        0.3354806554923569885444268742502307746751211773934303915373692342452941929761641411569],
      [ 2.897153057105493432130432594192938764924887287701866490314866693455023795137503079289,
        -6.359448489975074843148159912383825625952700647415626703305928850207288721235210244366,
        4.362295432869581411017727318190886861027813359713760212991062156752264926097707165077],
      [ 5.325864828439256604428877920840511317836476253097040101202360397727981648835607691791,
        -11.74888356406282787774717033978577296188744178259862899288666928009020615663593781589,
        7.495539342889836208304604784564358155658679161518186721010132816213648793440552049753,
        -0.9249506636175524925650207933207191611349983406029535244034750452930469056411389539635e-1],
      [ 5.861455442946420028659251486982647890394337666164814434818157239052507339770711679748,
        -12.92096931784710929170611868178335939541780751955743459166312250439928519268343184452,
        8.159367898576158643180400794539253485181918321135053305748355423955009222648673734986,
        -0.7158497328140099722453054252582973869127213147363544882721139659546372402303777878835e-1,
        -0.2826905039406838290900305721271224146717633626879770007617876201276764571291579142206e-1],
      [ 0.9646076681806522951816731316512876333711995238157997181903319145764851595234062815396e-1,
        1 / 100,
        0.4798896504144995747752495322905965199130404621990332488332634944254542060153074523509,
        1.379008574103741893192274821856872770756462643091360525934940067397245698027561293331,
        -3.290069515436080679901047585711363850115683290894936158531296799594813811049925401677,
        2.324710524099773982415355918398765796109060233222962411944060046314465391054716027841] ]
  c_sol :=
    [ 0.9646076681806522951816731316512876333711995238157997181903319145764851595234062815396e-1,
      1 / 100,
      0.4798896504144995747752495322905965199130404621990332488332634944254542060153074523509,
      1.379008574103741893192274821856872770756462643091360525934940067397245698027561293331,
      -3.290069515436080679901047585711363850115683290894936158531296799594813811049925401677,
      2.324710524099773982415355918398765796109060233222962411944060046314465391054716027841,
      0.0 ]
  c_error :=
    [ 0.9646076681806522951816731316512876333711995238157997181903319145764851595234062815396e-1
        - 0.9468075576583945807478876255758922856117527357724631226139574065785592789071067303271e-1,
      1 / 100
        - 0.9183565540343253096776363936645313759813746240984095238905939532922955247253608687270e-2,
      0.4798896504144995747752495322905965199130404621990332488332634944254542060153074523509
        - 0.4877705284247615707855642599631228241516691959761363774365216240304071651579571959813,
      1.379008574103741893192274821856872770756462643091360525934940067397245698027561293331
        - 1.234297566930478985655109673884237654035539930748192848315425833500484878378061439761,
      -3.290069515436080679901047585711363850115683290894936158531296799594813811049925401677
        + 2.707712349983525454881109975059321670689605166938197378763992255714444407154902012702,
      2.324710524099773982415355918398765796109060233222962411944060046314465391054716027841
        - 1.866628418170587035753719399566211498666255505244122593996591602841258328965767580089,
      -1 / 66 ]

/-- Tableau `_dopri5_tableau` of `diffrax/solver/dopri5.py`. -/
def _dopri5_tableau : ButcherTableauOld where
  alpha := [1 / 5, 3 / 10, 4 / 5, 8 / 9, 1.0, 1.0]
  beta :=
    [ [1 / 5],
      [3 / 40, 9 / 40],
      [44 / 45, -56 / 15, 32 / 9],
      [19372 / 6561, -25360 / 2187, 64448 / 6561, -212 / 729],
      [9017 / 3168, -355 / 33, 46732 / 5247, 49 / 176, -5103 / 18656],
      [35 / 384, 0, 500 / 1113, 125 / 192, -2187 / 6784, 11 / 84] ]
  c_sol := [35 / 384, 0, 500 / 1113, 125 / 192, -2187 / 6784, 11 / 84, 0]
  c_error :=
    [ 35 / 384 - 1951 / 21600,
      0,
      500 / 1113 - 22642 / 50085,
      125 / 192 - 451 / 720,
      -2187 / 6784 - (-12231 / 42400),
      11 / 84 - 649 / 6300,
      -1.0 / 60.0 ]

/-- Interpolation weight polynomial `b1` of
`_Tsit5Interpolation.evaluate` in `diffrax/solver/tsit5.py` (older API). -/
def b1 (t : ℚ) : ℚ :=
  -1.0530884977290216 * t * (t - 1.3299890189751412)
    * (t ^ 2 - 1.4364028541716351 * t + 0.7139816917074209)

/-- Interpolation weight polynomial `b2` (old API). -/
def b2 (t : ℚ) : ℚ :=
  0.1017 * t ^ 2 * (t ^ 2 - 2.1966568338249754 * t + 1.2949852507374631)

/-- Interpolation weight polynomial `b3` (old API). -/
def b3 (t : ℚ) : ℚ :=
  2.490627285651252793 * t ^ 2 * (t ^ 2 - 2.38535645472061657 * t + 1.57803468208092486)

/-- Interpolation weight polynomial `b4` (old API). -/
def b4 (t : ℚ) : ℚ :=
  -16.54810288924490272 * (t - 1.21712927295533244) * (t - 0.61620406037800089) * t ^ 2

/-- Interpolation weight polynomial `b5` (old API). -/
def b5 (t : ℚ) : ℚ :=
  47.37952196281928122 * (t - 1.203071208372362603) * (t - 0.658047292653547382) * t ^ 2

/-- Interpolation weight polynomial `b6` (old API). -/
def b6 (t : ℚ) : ℚ :=
  -34.87065786149660974 * (t - 1.2) * (t - 0.666666666666666667) * t ^ 2

/-- Interpolation weight polynomial `b7` (old API). -/
def b7 (t : ℚ) : ℚ :=
  2.5 * (t - 1) * (t - 0.6) * t ^ 2

/-- The stack `[b1, ..., b7]` built by `jnp.stack` in the old-API `evaluate`. -/
def bvec (t : ℚ) : Fin 7 → ℚ :=
  ![b1 t, b2 t, b3 t, b4 t, b5 t, b6 t, b7 t]

/-- Class `_Tsit5Interpolation` of `diffrax/solver/tsit5.py`: stores `y0`, the unused
`y1`, the stage stack `k`, and (via its base class) `t0`, `t1`. -/
structure Tsit5Interpolation (n : ℕ) where
  t0 : ℚ
  t1 : ℚ
  y0 : Fin n → ℚ
  y1 : Fin n → ℚ
  k : Fin 7 → Fin n → ℚ

/-- One-argument `_Tsit5Interpolation.evaluate` of the old API:
`_div = where(t0 == self.t0, 1, self.t1 - self.t0)`,
`t = (t0 - self.t0) / _div`, then `y0 + stack([b1 .. b7]) @ k`. -/
def Tsit5Interpolation.evaluate {n : ℕ} (I : Tsit5Interpolation n) (t : ℚ) :
    Fin n → ℚ :=
  let _div : ℚ := if t = I.t0 then 1 else I.t1 - I.t0
  let tt := (t - I.t0) / _div
  fun j => I.y0 j + ∑ i : Fin 7, bvec tt i * I.k i j

/-- Two-argument `_Tsit5Interpolation.evaluate` of the old API:
`if t1 is not None: return self.evaluate(t1) - self.evaluate(t0)`. -/
def Tsit5Interpolation.evaluate2 {n : ℕ} (I : Tsit5Interpolation n)
    (ta tb : ℚ) : Fin n → ℚ :=
  fun j => I.evaluate tb j - I.evaluate ta j

end OldAPI

/-- Modelled from the spec: the construction-time shape validation of a
Butcher tableau (§4.2; `runge_kutta.py` with the `InvalidTableau` check is not
among the sources).  With `s = len(c)`: the coupling matrix is strictly
lower-triangular in shape (row `i`, counting rows from 1, has exactly `i`
entries), and `b_sol`/`b_error` have length `s` (`s + 1` for FSAL methods). -/
def validShape (fsal : Bool) (a_lower : List (List ℚ)) (b_sol b_error c : List ℚ) : Bool :=
  let s := c.length
  (a_lower.length == s)
    && (List.range s).all (fun i => (a_lower.getD i []).length == i + 1)
    && (b_sol.length == if fsal then s + 1 else s)
    && (b_error.length == if fsal then s + 1 else s)

/-- Every interpolation weight polynomial of the new API has a factor `t` or
`t ^ 2` and hence vanishes at `t = 0`. -/
lemma new_bvec_zero : ∀ i, NewAPI.bvec 0 i = 0 := by
  intro i
  fin_cases i <;>
    norm_num [NewAPI.bvec, NewAPI.b1, NewAPI.b2, NewAPI.b3, NewAPI.b4, NewAPI.b5,
      NewAPI.b6, NewAPI.b7]

/-- Every interpolation weight polynomial of the old API has a factor `t` or
`t ^ 2` and hence vanishes at `t = 0`. -/
lemma old_bvec_zero : ∀ i, OldAPI.bvec 0 i = 0 := by
  intro i
  fin_cases i <;>
    norm_num [OldAPI.bvec, OldAPI.b1, OldAPI.b2, OldAPI.b3, OldAPI.b4, OldAPI.b5,
      OldAPI.b6, OldAPI.b7]

/-- The weight-polynomial stacks of the two API generations are written with
literally identical coefficients. -/
lemma bvec_eq : NewAPI.bvec = OldAPI.bvec := rfl

/-- C1 (counterexample): as exact rationals, the entries of the Tsit5 tableau's
`b_sol` do not sum to 1: the six nonzero decimal coefficients are 85-digit
truncations whose sum falls short of 1 by `7 / (5 * 10^85)`. -/
theorem tsit5_b_sol_sum_ne_one : NewAPI._tsit5_tableau.b_sol.sum ≠ 1 := by
  norm_num [NewAPI._tsit5_tableau]

/-- C1 (amended): the Dopri5 solution weights sum to 1 exactly, while the Tsit5
solution weights (identical in both API generations) sum to
`1 - 7 / (5 * 10^85)`, i.e. to 1 only up to the printed precision of the
coefficients. -/
theorem b_sol_sum_exact :
    OldAPI._dopri5_tableau.c_sol.sum = 1 ∧
    NewAPI._tsit5_tableau.b_sol.sum = 1 - 7 / (5 * 10 ^ 85) ∧
    OldAPI._tsit5_tableau.c_sol.sum = 1 - 7 / (5 * 10 ^ 85) := by
  refine ⟨?_, ?_, ?_⟩
  · norm_num [OldAPI._dopri5_tableau]
  · norm_num [NewAPI._tsit5_tableau]
  · norm_num [OldAPI._tsit5_tableau]

/-- C2 (counterexample): the first interpolation weight polynomial evaluated at
`tau = 1` is not exactly the first entry of the tableau's `b_sol`: the
polynomial coefficients are 17-significant-digit constants, so `b1(1)` differs
from `b_sol[0]` by about `2.3e-17`. -/
theorem tsit5_b1_at_one_ne_b_sol :
    NewAPI.bvec 1 0 ≠ NewAPI._tsit5_tableau.b_sol.getD 0 0 := by
  norm_num [NewAPI.bvec, NewAPI.b1, NewAPI._tsit5_tableau]

/-- C2 (amended): at `tau = 1` each weight polynomial agrees with the
corresponding entry of `b_sol` to within `10^-16` (the last one, `b7(1) = 0`,
exactly), and on a segment with `t0 ≠ t1` the interpolation evaluated at `t1`
is exactly `y0 + sum_i b_i(1) * k_i`; so `evaluate(t1)` agrees with the
stepper's `y1 = y0 + sum_i b_sol[i] * k_i` up to those coefficient
perturbations, not exactly. -/
theorem tsit5_interp_right_endpoint :
    (∀ i : Fin 7,
      |NewAPI.bvec 1 i - NewAPI._tsit5_tableau.b_sol.getD i.val 0| < 1 / 10 ^ 16) ∧
    NewAPI.b7 1 = NewAPI._tsit5_tableau.b_sol.getD 6 0 ∧
    ∀ (n : ℕ) (t0 t1 : ℚ) (y0 : Fin n → ℚ) (k : Fin 7 → Fin n → ℚ),
      t0 ≠ t1 →
      (NewAPI.Tsit5Interpolation.mk t0 t1 y0 k).evaluate t1
        = fun j => y0 j + ∑ i : Fin 7, NewAPI.bvec 1 i * k i j := by
  refine ⟨?_, ?_, ?_⟩
  · intro i
    fin_cases i <;>
      norm_num [NewAPI.bvec, NewAPI.b1, NewAPI.b2, NewAPI.b3, NewAPI.b4, NewAPI.b5,
        NewAPI.b6, NewAPI.b7, NewAPI._tsit5_tableau, abs_lt]
  · norm_num [NewAPI.bvec, NewAPI.b7, NewAPI._tsit5_tableau,
      Matrix.cons_val_succ, Matrix.cons_val_zero]
  · intro n t0 t1 y0 k h
    funext j
    have hne : t1 - t0 ≠ 0 := sub_ne_zero.mpr (Ne.symm h)
    simp [NewAPI.Tsit5Interpolation.evaluate, linear_rescale, div_self hne]

/-- C2 (witness for the amended theorem): instantiated on the segment
`t0 = 0, t1 = 1` with one-dimensional zero state and zero stage stack. -/
theorem tsit5_interp_right_endpoint_witness :
    (NewAPI.Tsit5Interpolation.mk 0 1 (fun _ : Fin 1 => 0) (fun _ _ => 0)).evaluate 1
      = fun j => (fun _ : Fin 1 => (0 : ℚ)) j
          + ∑ i : Fin 7, NewAPI.bvec 1 i * (fun _ _ => (0 : ℚ)) i j :=
  tsit5_interp_right_endpoint.2.2 1 0 1 (fun _ => 0) (fun _ _ => 0) (by norm_num)

/-- C3: evaluating a Tsit5 interpolation segment at its left endpoint returns
`y0` exactly, for every state `y0` and stage stack `k`, in both API
generations: every weight polynomial vanishes at `tau = 0`.  For the new API
the segment is assumed nondegenerate (`t0 ≠ t1`), matching the unguarded
rescale; the old API needs no such assumption thanks to its `where` guard. -/
theorem tsit5_interp_left_endpoint :
    ∀ (n : ℕ) (t0 t1 : ℚ) (y0 y1 : Fin n → ℚ) (k : Fin 7 → Fin n → ℚ),
      (t0 ≠ t1 → (NewAPI.Tsit5Interpolation.mk t0 t1 y0 k).evaluate t0 = y0) ∧
      (OldAPI.Tsit5Interpolation.mk t0 t1 y0 y1 k).evaluate t0 = y0 := by
  intro n t0 t1 y0 y1 k
  constructor
  · intro _
    funext j
    simp [NewAPI.Tsit5Interpolation.evaluate, linear_rescale, new_bvec_zero]
  · funext j
    simp [OldAPI.Tsit5Interpolation.evaluate, old_bvec_zero]

/-- C3 (witness): instantiated on the segment `t0 = 0, t1 = 1` with constant
state 2 and constant stage stack 3. -/
theorem tsit5_interp_left_endpoint_witness :
    (NewAPI.Tsit5Interpolation.mk 0 1 (fun _ : Fin 1 => 2) (fun _ _ => 3)).evaluate 0
        = (fun _ => 2) ∧
    (OldAPI.Tsit5Interpolation.mk 0 1 (fun _ : Fin 1 => 2) (fun _ => 5) (fun _ _ => 3)).evaluate 0
        = fun _ => 2 :=
  ⟨(tsit5_interp_left_endpoint 1 0 1 (fun _ => 2) (fun _ => 5) (fun _ _ => 3)).1
      (by norm_num),
   (tsit5_interp_left_endpoint 1 0 1 (fun _ => 2) (fun _ => 5) (fun _ _ => 3)).2⟩

/-- C4: the Tsit5 tableau has the FSAL structure: the last entry of `c` is 1
(the final stage is evaluated at the end point of the step), the last row of
`a_lower` equals the first six entries of `b_sol` (its evaluation state is the
candidate solution, since the seventh solution weight is 0), and the last
entry of `b_sol` is 0; consequently combining the stages with the last
`a_lower` row gives the same value as combining them with `b_sol`. -/
theorem tsit5_tableau_fsal :
    NewAPI._tsit5_tableau.c.getLast? = some 1 ∧
    NewAPI._tsit5_tableau.a_lower.getLast? = some (NewAPI._tsit5_tableau.b_sol.take 6) ∧
    NewAPI._tsit5_tableau.b_sol.getLast? = some 0 ∧
    ∀ k1 k2 k3 k4 k5 k6 k7 : ℚ,
      dotQ (NewAPI._tsit5_tableau.a_lower.getLastD []) [k1, k2, k3, k4, k5, k6]
        = dotQ NewAPI._tsit5_tableau.b_sol [k1, k2, k3, k4, k5, k6, k7] := by
  refine ⟨?_, ?_, ?_, ?_⟩
  · norm_num [NewAPI._tsit5_tableau]
  · norm_num [NewAPI._tsit5_tableau]
  · norm_num [NewAPI._tsit5_tableau]
  · intro k1 k2 k3 k4 k5 k6 k7
    simp [dotQ, NewAPI._tsit5_tableau]
    norm_num

/-- C5: all three tableaus defined in the sources pass the construction-time
shape validation (with `s = len(c) = 6` and the FSAL length `s + 1 = 7` for
`b_sol`/`b_error`), so construction never fails with `InvalidTableau`. -/
theorem tableaus_valid_shape :
    validShape true NewAPI._tsit5_tableau.a_lower NewAPI._tsit5_tableau.b_sol
        NewAPI._tsit5_tableau.b_error NewAPI._tsit5_tableau.c = true ∧
    validShape true OldAPI._tsit5_tableau.beta OldAPI._tsit5_tableau.c_sol
        OldAPI._tsit5_tableau.c_error OldAPI._tsit5_tableau.alpha = true ∧
    validShape true OldAPI._dopri5_tableau.beta OldAPI._dopri5_tableau.c_sol
        OldAPI._dopri5_tableau.c_error OldAPI._dopri5_tableau.alpha = true :=
  ⟨by decide, by decide, by decide⟩

/-- C6: for query times `ta ≤ tb` inside a segment, the two-argument form of
`evaluate` equals the difference of the one-argument evaluations, exactly, in
both API generations (the code returns `evaluate(t1) - evaluate(t0)`
verbatim). -/
theorem tsit5_difference_form :
    ∀ (n : ℕ) (ta tb : ℚ) (I : NewAPI.Tsit5Interpolation n)
      (J : OldAPI.Tsit5Interpolation n),
      I.t0 ≤ ta → ta ≤ tb → tb ≤ I.t1 → J.t0 ≤ ta → tb ≤ J.t1 →
      I.evaluate2 ta tb = (fun j => I.evaluate tb j - I.evaluate ta j) ∧
        J.evaluate2 ta tb = fun j => J.evaluate tb j - J.evaluate ta j := by
  intro n ta tb I J _ _ _ _ _
  exact ⟨rfl, rfl⟩

/-- C6 (witness): instantiated on unit segments `[0, 1]` with zero state,
query times `ta = 0`, `tb = 1`. -/
theorem tsit5_difference_form_witness :
    (NewAPI.Tsit5Interpolation.mk 0 1 (fun _ : Fin 1 => 0) (fun _ _ => 0)).evaluate2 0 1
        = (fun j =>
            (NewAPI.Tsit5Interpolation.mk 0 1 (fun _ : Fin 1 => 0) (fun _ _ => 0)).evaluate 1 j
              - (NewAPI.Tsit5Interpolation.mk 0 1 (fun _ : Fin 1 => 0) (fun _ _ => 0)).evaluate 0 j) ∧
      (OldAPI.Tsit5Interpolation.mk 0 1 (fun _ : Fin 1 => 0) (fun _ => 0) (fun _ _ => 0)).evaluate2 0 1
        = fun j =>
            (OldAPI.Tsit5Interpolation.mk 0 1 (fun _ : Fin 1 => 0) (fun _ => 0) (fun _ _ => 0)).evaluate 1 j
              - (OldAPI.Tsit5Interpolation.mk 0 1 (fun _ : Fin 1 => 0) (fun _ => 0) (fun _ _ => 0)).evaluate 0 j :=
  tsit5_difference_form 1 0 1 _ _ (le_refl 0) (by norm_num) (le_refl 1)
    (le_refl 0) (le_refl 1)

/-- C7: the two API generations define the same Tsit5 method: the old-API
tableau fields `alpha, beta, c_sol, c_error` are entry-for-entry equal to the
new-API fields `c, a_lower, b_sol, b_error`, the seven weight polynomials have
identical coefficients, and on a nondegenerate segment the two `evaluate`
implementations agree at every query time. -/
theorem tsit5_two_apis_agree :
    NewAPI._tsit5_tableau.c = OldAPI._tsit5_tableau.alpha ∧
    NewAPI._tsit5_tableau.a_lower = OldAPI._tsit5_tableau.beta ∧
    NewAPI._tsit5_tableau.b_sol = OldAPI._tsit5_tableau.c_sol ∧
    NewAPI._tsit5_tableau.b_error = OldAPI._tsit5_tableau.c_error ∧
    NewAPI.bvec = OldAPI.bvec ∧
    ∀ (n : ℕ) (t0 t1 : ℚ) (y0 y1 : Fin n → ℚ) (k : Fin 7 → Fin n → ℚ) (t : ℚ),
      t0 ≠ t1 →
      (NewAPI.Tsit5Interpolation.mk t0 t1 y0 k).evaluate t
        = (OldAPI.Tsit5Interpolation.mk t0 t1 y0 y1 k).evaluate t := by
  refine ⟨rfl, rfl, rfl, rfl, bvec_eq, ?_⟩
  intro n t0 t1 y0 y1 k t h
  funext j
  by_cases ht : t = t0
  · subst ht
    simp [NewAPI.Tsit5Interpolation.evaluate, OldAPI.Tsit5Interpolation.evaluate,
      linear_rescale, bvec_eq]
  · simp [NewAPI.Tsit5Interpolation.evaluate, OldAPI.Tsit5Interpolation.evaluate,
      linear_rescale, ht, bvec_eq]

/-- C7 (witness): the two evaluations agree on the segment `[0, 1]` with zero
state at the query time `1/2`. -/
theorem tsit5_two_apis_agree_witness :
    (NewAPI.Tsit5Interpolation.mk 0 1 (fun _ : Fin 1 => 0) (fun _ _ => 0)).evaluate (1 / 2)
      = (OldAPI.Tsit5Interpolation.mk 0 1 (fun _ : Fin 1 => 0) (fun _ => 0) (fun _ _ => 0)).evaluate (1 / 2) :=
  tsit5_two_apis_agree.2.2.2.2.2 1 0 1 (fun _ => 0) (fun _ => 0) (fun _ _ => 0)
    (1 / 2) (by norm_num)

/-- C8: the `y1` argument of the new-API interpolation constructor is
discarded, so two segments built with identical `t0, t1, y0, k` but arbitrary
differing `y1` produce identical `evaluate` results at every query time. -/
theorem tsit5_interp_discards_y1 :
    ∀ (n : ℕ) (t0 t1 : ℚ) (y0 y1a y1b : Fin n → ℚ) (k : Fin 7 → Fin n → ℚ)
      (t : ℚ),
      (NewAPI.Tsit5Interpolation.init t0 t1 y0 y1a k).evaluate t
        = (NewAPI.Tsit5Interpolation.init t0 t1 y0 y1b k).evaluate t := by
  intro n t0 t1 y0 y1a y1b k t
  rfl

/-- C9 (counterexample): as exact rationals, the Tsit5 embedded error weights
do not sum to 0: the 85-digit decimal truncations leave a remainder of
`-1543 / (165 * 10^85)`. -/
theorem tsit5_b_error_sum_ne_zero : NewAPI._tsit5_tableau.b_error.sum ≠ 0 := by
  norm_num [NewAPI._tsit5_tableau]

/-- C9 (amended): the Dopri5 error weights sum to 0 exactly, so its error
estimate vanishes identically whenever all stage derivatives are equal; the
Tsit5 error weights (both APIs) sum to `-1543 / (165 * 10^85)`, so for equal
stage derivatives `v` and step size `dt` its error estimate is the nonzero
residue `dt * v * (-1543 / (165 * 10^85))` rather than 0. -/
theorem b_error_sum_exact :
    OldAPI._dopri5_tableau.c_error.sum = 0 ∧
    NewAPI._tsit5_tableau.b_error.sum = -1543 / (165 * 10 ^ 85) ∧
    OldAPI._tsit5_tableau.c_error.sum = -1543 / (165 * 10 ^ 85) ∧
    (∀ dt v : ℚ, dt * dotQ OldAPI._dopri5_tableau.c_error [v, v, v, v, v, v, v] = 0) ∧
    ∀ dt v : ℚ,
      dt * dotQ NewAPI._tsit5_tableau.b_error [v, v, v, v, v, v, v]
        = dt * v * (-1543 / (165 * 10 ^ 85)) := by
  refine ⟨?_, ?_, ?_, ?_, ?_⟩
  · norm_num [OldAPI._dopri5_tableau]
  · norm_num [NewAPI._tsit5_tableau]
  · norm_num [OldAPI._tsit5_tableau]
  · intro dt v
    simp only [dotQ, OldAPI._dopri5_tableau, List.zipWith_cons_cons,
      List.zipWith_nil_right, List.sum_cons, List.sum_nil]
    ring_nf
  · intro dt v
    simp only [dotQ, NewAPI._tsit5_tableau, List.zipWith_cons_cons,
      List.zipWith_nil_right, List.sum_cons, List.sum_nil]
    ring_nf

/-- C10: the old-API rescaling guard replaces the denominator `t1 - t0` by 1
when the query time equals the segment's own `t0`, so `evaluate(t0)` returns
`y0` for every segment, including a zero-width one with `t1 = t0`. -/
theorem old_tsit5_evaluate_t0_guarded :
    ∀ (n : ℕ) (t0 t1 : ℚ) (y0 y1 : Fin n → ℚ) (k : Fin 7 → Fin n → ℚ),
      (OldAPI.Tsit5Interpolation.mk t0 t1 y0 y1 k).evaluate t0 = y0 ∧
      (OldAPI.Tsit5Interpolation.mk t0 t0 y0 y1 k).evaluate t0 = y0 := by
  intro n t0 t1 y0 y1 k
  constructor
  · funext j
    simp [OldAPI.Tsit5Interpolation.evaluate, old_bvec_zero]
  · funext j
    simp [OldAPI.Tsit5Interpolation.evaluate, old_bvec_zero]

end Diffrax
